import Mathlib

/-!
Shallow embedding of `src/VeoVidGen.py` (veovidgen): a CLI utility that
asks a generation service for a video, downloads the bytes referenced by
the response (an `https://` or `gs://` URI), derives an output filename,
and uploads the bytes in 5 MiB chunks to a storage drive.

Python strings are modelled as `String`; the Python string primitives
used by the script (`lower`, `endswith`, `startswith`, `replace`,
slicing, `split`) are embedded as functions on the underlying character
list, matching the code-point semantics of Python strings.  Byte buffers are
`List Nat`.  The external collaborators (model client, HTTP transport,
GCS client, Drive chunk transfer) are opaque in the source and appear
here as environment fields; every branch of the source that prints a
distinct diagnostic and returns the failure sentinel `(None, None)` /
`None` becomes a distinct failure constructor.
-/

namespace VeoVidGen

/-- Python `s.lower()`: per-character lowercasing (line 277 of the source). -/
def pyLower (s : String) : String := ⟨s.data.map Char.toLower⟩

/-- Python `s.endswith(suffix)` for a single suffix: suffix test on code points. -/
def pyEndsWith (s suffix : String) : Bool := suffix.data.isSuffixOf s.data

/-- Python `s.startswith(p)`: prefix test on code points (lines 140, 159). -/
def pyStartsWith (s p : String) : Bool := p.data.isPrefixOf s.data

/-- Python `s.replace(' ', '_')` (line 286): per-character substitution. -/
def pyReplaceSpaceUnderscore (s : String) : String :=
  ⟨s.data.map (fun c => if c = ' ' then '_' else c)⟩

/-- Python `s[:n]` on strings (line 286): first `n` code points. -/
def pySlice (s : String) (n : Nat) : String := ⟨s.data.take n⟩

/-- Python `s.split('/')` (lines 278, 285): split on every `'/'`; never empty. -/
def splitSlash : List Char → List (List Char)
  | [] => [[]]
  | c :: rest =>
    let r := splitSlash rest
    if c = '/' then [] :: r
    else
      match r with
      | s :: tail => (c :: s) :: tail
      | [] => [[c]]

/-- Python `s.split('/')[-1]`: the last component of the slash-split. -/
def lastSplitSlash (s : String) : String := ⟨(splitSlash s.data).getLastD []⟩

/-- Python `s.split('/', 1)` used as `bucket, key = uri[5:].split('/', 1)`
(line 168): `none` models the `ValueError` raised when no `'/'` occurs. -/
def splitFirstSlash : List Char → Option (List Char × List Char)
  | [] => none
  | c :: rest =>
    if c = '/' then some ([], rest)
    else
      match splitFirstSlash rest with
      | some (b, k) => some (c :: b, k)
      | none => none

/-- `DEFAULT_VIDEO_MIME_TYPE` (line 41). -/
def DEFAULT_VIDEO_MIME_TYPE : String := "video/mp4"

/-- `known_video_extensions` (line 276). -/
def known_video_extensions : List String := [".mp4", ".mov", ".avi", ".webm", ".mkv"]

/-- Line 277: `output_filename.lower().endswith(known_video_extensions)`. -/
def hasKnownVideoExtension (name : String) : Bool :=
  known_video_extensions.any (fun e => pyEndsWith (pyLower name) e)

/-- Lines 278-282: the extension appended to an explicit name that lacks a
recognized one — `video_mime_type.split('/')[-1]`, falling back to `mp4`
when that component is empty or `'*'`. -/
def appendedExt (video_mime_type : String) : String :=
  let inferred_ext := lastSplitSlash video_mime_type
  if inferred_ext ≠ "" ∧ inferred_ext ≠ "*" then inferred_ext else "mp4"

/-- Lines 273-282 of `main`: filename derivation for an explicit
`--output_filename`.  A name already carrying a recognized video extension
is kept; otherwise `appendedExt` is appended after a dot. -/
def deriveExplicitFilename (output_filename video_mime_type : String) : String :=
  if hasKnownVideoExtension output_filename then output_filename
  else output_filename ++ "." ++ appendedExt video_mime_type

/-- Line 285: the extension used when no explicit name is given —
`video_mime_type.split('/')[-1] if video_mime_type and
video_mime_type.split('/')[-1] != '*' else "mp4"` (single-quoted in the
source). -/
def synthExt (video_mime_type : String) : String :=
  if video_mime_type ≠ "" ∧ lastSplitSlash video_mime_type ≠ "*" then
    lastSplitSlash video_mime_type
  else "mp4"

/-- Lines 284-286 of `main`: synthesized filename — the fixed text
`veo_video_`, then the first 20 code points of the prompt with every
space turned into an underscore, an underscore, the timestamp
(`time.strftime` result, passed in here), a dot, and `synthExt`. -/
def deriveSynthesizedFilename (prompt timestamp video_mime_type : String) : String :=
  "veo_video_" ++ pyReplaceSpaceUnderscore (pySlice prompt 20) ++ "_" ++ timestamp
    ++ "." ++ synthExt video_mime_type

/-- `part.file_data` of a response part: the file reference (URI + declared
content type), lines 120, 132-133. -/
structure FileData where
  file_uri : String
  mime_type : String
deriving DecidableEq, Repr

/-- A response content part; `file_data = none` models a part without the
`file_data` attribute (the `hasattr` probe on line 120). -/
structure Part where
  file_data : Option FileData
deriving DecidableEq, Repr

/-- `candidates[0].content`, line 113: list of parts. -/
structure Content where
  parts : List Part
deriving DecidableEq, Repr

/-- A response candidate; `content = none` models a falsy `content`. -/
structure Candidate where
  content : Option Content
deriving DecidableEq, Repr

/-- Structured response of the generation service, line 111. -/
structure GenResponse where
  candidates : List Candidate
deriving DecidableEq, Repr

/-- The distinct failure branches of `generate_veo_video`: each constructor
corresponds to one branch of the source that prints its own diagnostic and
returns the failure sentinel `(None, None)` (lines 92-97, 113-116, 127-130,
141-144, 154-156, 160-163, 173-176, 177-180, 184-186, 188-192). -/
inductive GenFailure where
  | ModelInitError
  | GenerationRequestError
  | EmptyResponseError
  | NoVideoPartError
  | MissingRequestsLibError
  | MissingStorageLibError
  | DownloadError
  | UnsupportedURISchemeError
  | EmptyBytesError
deriving DecidableEq, Repr

/-- Lines 118-122: scan the parts for the first one whose `file_data`
declares a `mime_type` starting with `video/`. -/
def firstVideoPart : List Part → Option FileData
  | [] => none
  | p :: rest =>
    match p.file_data with
    | some fd => if pyStartsWith fd.mime_type "video/" then some fd else firstVideoPart rest
    | none => firstVideoPart rest

/-- Environment of external collaborators for `generate_veo_video`:
whether model construction succeeds (line 91), the outcome of
`model.generate_content` (line 111; `.error` models a raised exception,
caught by the outer handler on line 188), library availability flags
(lines 141, 160), and the two transports (`requests.get` + content,
line 150, and the GCS blob read, lines 166-171), whose `.error` models
the exceptions caught on lines 154 and 173. -/
structure GenEnv where
  modelInitOk : Bool
  generateContentResult : Except Unit GenResponse
  requestsAvailable : Bool
  storageAvailable : Bool
  httpsGet : String → Except Unit (List Nat)
  gcsFetch : String → String → Except Unit (List Nat)

/-- Lines 138-180: retrieval of the video bytes by URI scheme.  The second
component counts retrieval attempts (calls of `requests.get` or
`blob.download_as_bytes`).  For a `gs://` URI without a `'/'` after the
bucket, the `split('/', 1)` unpacking raises `ValueError`, which the
handler on line 173 converts to the same download failure as a failed
fetch, before any fetch is attempted. -/
def downloadVideo (env : GenEnv) (file_uri : String) : Except GenFailure (List Nat) × Nat :=
  if pyStartsWith file_uri "https://" then
    if env.requestsAvailable then
      match env.httpsGet file_uri with
      | .ok bs => (.ok bs, 1)
      | .error _ => (.error .DownloadError, 1)
    else (.error .MissingRequestsLibError, 0)
  else if pyStartsWith file_uri "gs://" then
    if env.storageAvailable then
      match splitFirstSlash (file_uri.data.drop 5) with
      | some (bucket_name, blob_name) =>
        match env.gcsFetch ⟨bucket_name⟩ ⟨blob_name⟩ with
        | .ok bs => (.ok bs, 1)
        | .error _ => (.error .DownloadError, 1)
      | none => (.error .DownloadError, 0)
    else (.error .MissingStorageLibError, 0)
  else (.error .UnsupportedURISchemeError, 0)

/-- Lines 80-192, `generate_veo_video`: the whole generation pipeline.
Returns either the byte buffer with its content type, or the failure kind
of the branch taken; the second component counts retrieval attempts.
Line 133: `video_mime_type = video_part.file_data.mime_type or
DEFAULT_VIDEO_MIME_TYPE` — the `or` takes the default exactly when the
declared type is the empty string.  Lines 182-186: empty retrieved bytes
are rejected. -/
def generate_veo_video (env : GenEnv) : Except GenFailure (List Nat × String) × Nat :=
  if env.modelInitOk then
    match env.generateContentResult with
    | .error _ => (.error .GenerationRequestError, 0)
    | .ok response =>
      match response.candidates with
      | [] => (.error .EmptyResponseError, 0)
      | c0 :: _ =>
        match c0.content with
        | none => (.error .EmptyResponseError, 0)
        | some content =>
          if content.parts = [] then (.error .EmptyResponseError, 0)
          else
            match firstVideoPart content.parts with
            | none => (.error .NoVideoPartError, 0)
            | some fd =>
              let video_mime_type :=
                if fd.mime_type = "" then DEFAULT_VIDEO_MIME_TYPE else fd.mime_type
              match downloadVideo env fd.file_uri with
              | (.ok video_bytes, n) =>
                if video_bytes = [] then (.error .EmptyBytesError, n)
                else (.ok (video_bytes, video_mime_type), n)
              | (.error e, n) => (.error e, n)
  else (.error .ModelInitError, 0)

/-- The fields read from the Drive create response (line 213,
`fields="id, webViewLink"`; lines 230-231 use `.get`, so either may be
absent). -/
structure DriveResponse where
  id : Option String
  webViewLink : Option String
deriving DecidableEq, Repr

/-- One observed behaviour of `request.next_chunk()` (line 219):
`ret st resp` is a normal return carrying an optional progress status
(`st` is the already-computed `int(status.progress() * 100)`) and an
optional final response; `raise` is a raised exception (caught on
line 225). -/
inductive ChunkStep where
  | ret (st : Option Nat) (resp : Option DriveResponse)
  | raise
deriving DecidableEq, Repr

/-- How the upload loop of lines 217-228 ended. -/
inductive UploadOutcome where
  | completed (resp : DriveResponse)
  | chunkError
  | exhausted
deriving DecidableEq, Repr

/-- Lines 221-224: the percentages printed for one chunk status —
`[np]` when `new_progress > progress`, else nothing. -/
def stepReports (st : Option Nat) (progress : Nat) : List Nat :=
  match st with
  | some np => if progress < np then [np] else []
  | none => []

/-- Lines 221-223: the `progress` variable after one chunk status. -/
def stepProgress (st : Option Nat) (progress : Nat) : Nat :=
  match st with
  | some np => if progress < np then np else progress
  | none => progress

/-- The `while response is None` loop of lines 217-228, driven by a script
of `next_chunk` behaviours.  Returns the printed percentages, the loop
outcome, and the number of `next_chunk` calls made.  A raised chunk error
stops the loop at once (line 228); `exhausted` marks a script that ends
before the loop does (unreachable for scripts ending in a response or a
raise). -/
def runChunks : List ChunkStep → Nat → List Nat × UploadOutcome × Nat
  | [], _ => ([], UploadOutcome.exhausted, 0)
  | ChunkStep.raise :: _, _ => ([], UploadOutcome.chunkError, 1)
  | ChunkStep.ret st (some r) :: _, progress =>
    (stepReports st progress, UploadOutcome.completed r, 1)
  | ChunkStep.ret st none :: rest, progress =>
    let t := runChunks rest (stepProgress st progress)
    (stepReports st progress ++ t.1, t.2.1, t.2.2 + 1)

/-- Lines 196-238, `upload_to_drive`, from the point where the create
request exists: run the chunk loop; on completion return
`response.get("webViewLink")` (lines 231, 235) — `response.get("id")`
(line 230) is only printed, never part of the returned value; on a chunk
error return `None` (line 228).  Result: (returned link, printed
percentages, `next_chunk` calls made).  The source contains no deletion
or cleanup call for the partially created remote object on any path. -/
def upload_to_drive (script : List ChunkStep) : Option String × List Nat × Nat :=
  match runChunks script 0 with
  | (reports, UploadOutcome.completed resp, n) => (resp.webViewLink, reports, n)
  | (reports, _, n) => (none, reports, n)

/-- A concrete environment in which generation succeeds: the response
carries one part whose file reference is an `https://` URI with declared
type `video/mp4`, and the HTTP transport returns two bytes. -/
def envHttpsOk : GenEnv :=
  { modelInitOk := true
    generateContentResult := Except.ok
      ⟨[⟨some ⟨[⟨some ⟨"https://example.com/v.mp4", "video/mp4"⟩⟩]⟩⟩]⟩
    requestsAvailable := true
    storageAvailable := true
    httpsGet := fun _ => Except.ok [7, 7]
    gcsFetch := fun _ _ => Except.error () }

/-- A concrete environment whose video reference uses an `ftp://` URI,
with both transports able to answer (so that a retrieval attempt, were
one made, would be visible in the attempt count). -/
def envFtp : GenEnv :=
  { modelInitOk := true
    generateContentResult := Except.ok
      ⟨[⟨some ⟨[⟨some ⟨"ftp://example.com/v.mp4", "video/mp4"⟩⟩]⟩⟩]⟩
    requestsAvailable := true
    storageAvailable := true
    httpsGet := fun _ => Except.ok [7, 7]
    gcsFetch := fun _ _ => Except.ok [7, 7] }

/-- A concrete environment whose video reference is `gs://bucketonly`:
a cloud-object URI with no `/` separating bucket and key. -/
def envGsBad : GenEnv :=
  { modelInitOk := true
    generateContentResult := Except.ok
      ⟨[⟨some ⟨[⟨some ⟨"gs://bucketonly", "video/mp4"⟩⟩]⟩⟩]⟩
    requestsAvailable := true
    storageAvailable := true
    httpsGet := fun _ => Except.ok [7, 7]
    gcsFetch := fun _ _ => Except.ok [7, 7] }

/-- Helper: a part selected by the scan of lines 118-122 always declares a
content type starting with `video/`. -/
theorem firstVideoPart_mime : ∀ {parts : List Part} {fd : FileData},
    firstVideoPart parts = some fd → pyStartsWith fd.mime_type "video/" = true := by
  intro parts
  induction parts with
  | nil => intro fd h; simp [firstVideoPart] at h
  | cons p rest ih =>
    intro fd h
    unfold firstVideoPart at h
    cases hp : p.file_data with
    | none => rw [hp] at h; exact ih h
    | some fd' =>
      rw [hp] at h
      simp only [] at h
      by_cases hs : pyStartsWith fd'.mime_type "video/" = true
      · rw [if_pos hs] at h
        injection h with h
        subst h
        exact hs
      · rw [if_neg hs] at h
        exact ih h

/-- Helper: a part can only be selected from a non-empty part list. -/
theorem firstVideoPart_ne_nil {parts : List Part} {fd : FileData}
    (h : firstVideoPart parts = some fd) : parts ≠ [] := by
  intro he; subst he; simp [firstVideoPart] at h

/-- Helper: a string starting with `video/` is not empty. -/
theorem pyStartsWith_video_ne_empty {s : String} (h : pyStartsWith s "video/" = true) :
    s ≠ "" := by
  intro he; subst he; exact absurd h (by decide)

/-- Claim C1 (confirmed): for every environment, `generate_veo_video`
either returns a non-empty byte buffer together with a content type
starting with `video/`, or returns one of the distinct failure kinds of
`GenFailure` (each the image of one diagnostic-and-return branch of the
source, so the failing phase is identified); the `Except` result makes
returning both impossible.  This theorem carries the non-trivial half:
every success has a non-empty buffer and a `video/` content type. -/
theorem generate_success_nonempty_video (env : GenEnv) (bs : List Nat) (ct : String)
    (h : (generate_veo_video env).1 = Except.ok (bs, ct)) :
    bs ≠ [] ∧ pyStartsWith ct "video/" = true := by
  unfold generate_veo_video at h
  repeat' split at h
  all_goals simp_all
  all_goals obtain ⟨-, hct⟩ := h
  · subst hct; decide
  · subst hct
    exact firstVideoPart_mime (by assumption)

/-- Witness for C1: in `envHttpsOk` generation succeeds with buffer
`[7, 7]` and content type `video/mp4`, which is non-empty and `video/*`. -/
theorem generate_success_nonempty_video_witness :
    ([7, 7] : List Nat) ≠ [] ∧ pyStartsWith "video/mp4" "video/" = true :=
  generate_success_nonempty_video envHttpsOk [7, 7] "video/mp4" (by rfl)

/-- Helper: per-character lowercasing distributes over append. -/
theorem pyLower_append (a b : String) :
    pyLower (a ++ b) = pyLower a ++ pyLower b := by
  unfold pyLower
  apply String.ext
  simp [String.data_append]

/-- Helper: a suffix of `b` is a suffix of `a ++ b`. -/
theorem pyEndsWith_append (a b suffix : String)
    (h : pyEndsWith b suffix = true) : pyEndsWith (a ++ b) suffix = true := by
  unfold pyEndsWith at h ⊢
  rw [List.isSuffixOf_iff_suffix] at h ⊢
  rw [String.data_append]
  exact h.trans (List.suffix_append a.data b.data)

/-- Helper: every string ends with itself. -/
theorem pyEndsWith_self (s : String) : pyEndsWith s s = true := by
  unfold pyEndsWith
  rw [List.isSuffixOf_iff_suffix]

/-- Helper: appending a dot and an extension whose lowercase form is one
of the five recognized ones yields a name that passes the
recognized-extension test of line 277. -/
theorem hasKnown_append (name a : String)
    (h : pyLower a ∈ (["mp4", "mov", "avi", "webm", "mkv"] : List String)) :
    hasKnownVideoExtension (name ++ "." ++ a) = true := by
  unfold hasKnownVideoExtension
  rw [List.any_eq_true]
  refine ⟨"." ++ pyLower a, ?_, ?_⟩
  · simp only [List.mem_cons] at h
    rcases h with h | h | h | h | h | h
    all_goals first
      | (rw [h]; simp [known_video_extensions])
      | exact absurd h (by simp)
  · rw [String.append_assoc, pyLower_append]
    apply pyEndsWith_append
    have hdot : pyLower "." = "." := by decide
    have : pyLower ("." ++ a) = "." ++ pyLower a := by
      rw [pyLower_append, hdot]
    rw [← this]
    exact pyEndsWith_self _

/-- Claim C2, counterexample: filename derivation is NOT idempotent as
claimed.  For explicit name `clip` and content type `video/ogg` one
application yields `clip.ogg` — which lacks a recognized extension — and
a second application yields `clip.ogg.ogg`. -/
theorem derive_explicit_not_idempotent :
    deriveExplicitFilename (deriveExplicitFilename "clip" "video/ogg") "video/ogg"
      ≠ deriveExplicitFilename "clip" "video/ogg" := by decide

/-- Claim C2 (corrected): filename derivation is idempotent whenever the
extension the first application would append (the content-type subtype,
or the `mp4` fallback) is, lowercased, one of the recognized video
extensions; for any other subtype (e.g. `ogg`) the derivation appends
again on the second application. -/
theorem derive_explicit_idempotent_amended (name mime : String)
    (h : pyLower (appendedExt mime) ∈ (["mp4", "mov", "avi", "webm", "mkv"] : List String)) :
    deriveExplicitFilename (deriveExplicitFilename name mime) mime
      = deriveExplicitFilename name mime := by
  by_cases hk : hasKnownVideoExtension name = true
  · simp [deriveExplicitFilename, hk]
  · have e1 : deriveExplicitFilename name mime = name ++ "." ++ appendedExt mime := by
      simp [deriveExplicitFilename, hk]
    rw [e1]
    have hn := hasKnown_append name (appendedExt mime) h
    simp [deriveExplicitFilename, hn]

/-- Witness for the amended C2 at name `clip`, content type `video/mp4`. -/
theorem derive_explicit_idempotent_amended_witness :
    deriveExplicitFilename (deriveExplicitFilename "clip" "video/mp4") "video/mp4"
      = deriveExplicitFilename "clip" "video/mp4" :=
  derive_explicit_idempotent_amended "clip" "video/mp4" (by decide)

/-- Claim C3, counterexample: the filename claimed in the spec keeps 24
characters of the prompt (`A_cat_riding_a_skateboar`), but the source
takes `args.prompt[:20]`, so the claimed string is not what the code
produces. -/
theorem derive_synthesized_example_false :
    deriveSynthesizedFilename "A cat riding a skateboard down a hill" "20240101-120000"
        "video/webm"
      ≠ "veo_video_A_cat_riding_a_skateboar_20240101-120000.webm" := by decide

/-- Claim C3 (corrected): with no explicit name, prompt
`A cat riding a skateboard down a hill`, content type `video/webm` and
timestamp `20240101-120000`, the synthesized filename is the fixed
prefix, the first 20 characters of the prompt with spaces replaced by
underscores (`A_cat_riding_a_skate`), the timestamp, and the inferred
extension: `veo_video_A_cat_riding_a_skate_20240101-120000.webm`. -/
theorem derive_synthesized_example_amended :
    deriveSynthesizedFilename "A cat riding a skateboard down a hill" "20240101-120000"
        "video/webm"
      = "veo_video_A_cat_riding_a_skate_20240101-120000.webm" := by decide

/-- Claim C4, counterexample: a completed upload whose response carries a
view link but NO object identifier still returns the link (the source
only ever returns `file_link`, line 235, and never checks `file_id`), so
the upload does not fail when the identifier is absent — contradicting
the claim that either absent field yields a failure with no link. -/
theorem upload_missing_id_still_returns_link :
    (upload_to_drive [ChunkStep.ret none
        (some { id := none, webViewLink := some "https://drive.example/view" })]).1
      = some "https://drive.example/view" := rfl

/-- Claim C4 (corrected): after all chunks complete, the upload returns
exactly the view-link field of the service response: no link exactly when
the view link is absent; an absent object identifier alone does not make
the result a failure (it is only printed). -/
theorem upload_link_is_view_link (script : List ChunkStep) (resp : DriveResponse)
    (h : (runChunks script 0).2.1 = UploadOutcome.completed resp) :
    (upload_to_drive script).1 = resp.webViewLink := by
  unfold upload_to_drive
  split
  · rename_i reports resp' n heq
    rw [heq] at h
    simp at h
    rw [h]
  · rename_i reports out n heq hout
    rw [hout] at h
    simp at h
    exact (heq resp h).elim

/-- Witness for the corrected C4: a one-chunk completed upload whose
response has both fields returns its view link. -/
theorem upload_link_is_view_link_witness :
    (upload_to_drive [ChunkStep.ret none
        (some { id := some "fileid", webViewLink := some "https://drive.example/w" })]).1
      = some "https://drive.example/w" :=
  upload_link_is_view_link _ _ (by rfl)

/-- Helper for C5: a chunk script of successful non-final transfers
followed by a raising transfer ends in `chunkError` after exactly
`pre.length + 1` calls of `next_chunk`, whatever follows the raise. -/
theorem runChunks_raise (pre : List ChunkStep) :
    ∀ (rest : List ChunkStep) (progress : Nat),
    (∀ s ∈ pre, ∃ st, s = ChunkStep.ret st none) →
    (runChunks (pre ++ ChunkStep.raise :: rest) progress).2.1 = UploadOutcome.chunkError ∧
    (runChunks (pre ++ ChunkStep.raise :: rest) progress).2.2 = pre.length + 1 := by
  induction pre with
  | nil => intro rest progress _; simp [runChunks]
  | cons s pre' ih =>
    intro rest progress hpre
    obtain ⟨st, hst⟩ := hpre s (by simp)
    subst hst
    have hrec := ih rest (stepProgress st progress) (fun s hs => hpre s (by simp [hs]))
    simp only [List.cons_append, runChunks, List.append_eq]
    refine ⟨hrec.1, ?_⟩
    rw [hrec.2]
    simp

/-- Claim C5 (confirmed): if chunk `pre.length + 1` raises, the upload
aborts at once — it returns no link and the number of chunk transfers
attempted is exactly `pre.length + 1`, so no chunk after the failing one
is ever attempted, whatever the remaining script holds.  The embedding
of `upload_to_drive` contains no retry and no deletion or cleanup
operation for the partially created remote object, mirroring the source,
which has none on any path. -/
theorem upload_chunk_error_aborts (pre rest : List ChunkStep)
    (hpre : ∀ s ∈ pre, ∃ st, s = ChunkStep.ret st none) :
    (upload_to_drive (pre ++ ChunkStep.raise :: rest)).1 = none ∧
    (upload_to_drive (pre ++ ChunkStep.raise :: rest)).2.2 = pre.length + 1 := by
  have h := runChunks_raise pre rest 0 hpre
  unfold upload_to_drive
  split
  · rename_i reports resp n heq
    rw [heq] at h
    simp at h
  · rename_i heq
    rw [heq] at h
    exact ⟨rfl, by simpa using h.2⟩

/-- Witness for C5: a failure on chunk 2 of 5 returns no link and attempts
exactly 2 transfers, never chunks 3-5. -/
theorem upload_chunk_error_aborts_witness :
    (upload_to_drive ([ChunkStep.ret (some 20) none] ++ ChunkStep.raise ::
      [ChunkStep.ret (some 60) none, ChunkStep.ret (some 80) none,
       ChunkStep.ret none (some ⟨some "fileid", some "https://drive.example/view"⟩)])).1
        = none ∧
    (upload_to_drive ([ChunkStep.ret (some 20) none] ++ ChunkStep.raise ::
      [ChunkStep.ret (some 60) none, ChunkStep.ret (some 80) none,
       ChunkStep.ret none (some ⟨some "fileid", some "https://drive.example/view"⟩)])).2.2
        = 2 :=
  upload_chunk_error_aborts [ChunkStep.ret (some 20) none]
    [ChunkStep.ret (some 60) none, ChunkStep.ret (some 80) none,
     ChunkStep.ret none (some ⟨some "fileid", some "https://drive.example/view"⟩)]
    (by intro s hs; simp at hs; exact ⟨some 20, hs⟩)

/-- Claim C6 (confirmed): whenever the selected video reference has a URI
whose scheme is neither `https://` nor `gs://`, generation fails with
`UnsupportedURISchemeError` and the retrieval-attempt count is zero. -/
theorem generate_unsupported_scheme (env : GenEnv) (response : GenResponse)
    (c0 : Candidate) (cs : List Candidate) (content : Content) (fd : FileData)
    (hmi : env.modelInitOk = true)
    (h1 : env.generateContentResult = Except.ok response)
    (h2 : response.candidates = c0 :: cs)
    (h3 : c0.content = some content)
    (h4 : firstVideoPart content.parts = some fd)
    (h5 : pyStartsWith fd.file_uri "https://" = false)
    (h6 : pyStartsWith fd.file_uri "gs://" = false) :
    generate_veo_video env = (Except.error GenFailure.UnsupportedURISchemeError, 0) := by
  unfold generate_veo_video
  rw [if_pos hmi]
  simp only [h1]
  simp only [h2]
  simp only [h3]
  rw [if_neg (firstVideoPart_ne_nil h4)]
  simp only [h4]
  unfold downloadVideo
  rw [h5, h6]
  simp

/-- Witness for C6: in `envFtp` (URI `ftp://example.com/v.mp4`) generation
fails with `UnsupportedURISchemeError` after zero retrieval attempts. -/
theorem generate_unsupported_scheme_witness :
    generate_veo_video envFtp = (Except.error GenFailure.UnsupportedURISchemeError, 0) :=
  generate_unsupported_scheme envFtp
    ⟨[⟨some ⟨[⟨some ⟨"ftp://example.com/v.mp4", "video/mp4"⟩⟩]⟩⟩]⟩
    ⟨some ⟨[⟨some ⟨"ftp://example.com/v.mp4", "video/mp4"⟩⟩]⟩⟩ []
    ⟨[⟨some ⟨"ftp://example.com/v.mp4", "video/mp4"⟩⟩]⟩
    ⟨"ftp://example.com/v.mp4", "video/mp4"⟩
    rfl rfl rfl rfl (by rfl) (by decide) (by decide)

/-- Claim C7 (confirmed): an explicit name lacking a recognized video
extension gets `appendedExt` — the last slash-component of the content
type (for a `type/subtype` string, its subtype), or `mp4` when that
component is empty or the wildcard — appended after a dot; a name already
carrying a recognized extension is unchanged; in particular `clip` with
`video/mp4` becomes `clip.mp4` and `clip.mov` stays `clip.mov`. -/
theorem derive_explicit_spec (name mime : String) :
    (hasKnownVideoExtension name = false →
      deriveExplicitFilename name mime = name ++ "." ++ appendedExt mime) ∧
    (hasKnownVideoExtension name = true → deriveExplicitFilename name mime = name) ∧
    deriveExplicitFilename "clip" "video/mp4" = "clip.mp4" ∧
    deriveExplicitFilename "clip.mov" "video/mp4" = "clip.mov" := by
  refine ⟨?_, ?_, by decide, by decide⟩
  · intro hk
    simp [deriveExplicitFilename, hk]
  · intro hk
    simp [deriveExplicitFilename, hk]

/-- Witness for C7: both hypothesis-guarded conjuncts at concrete
inputs — `movie` lacks a recognized extension and gets `.webm` appended,
`movie.avi` already carries one and is unchanged. -/
theorem derive_explicit_spec_witness :
    deriveExplicitFilename "movie" "video/webm" = "movie" ++ "." ++ appendedExt "video/webm" ∧
    deriveExplicitFilename "movie.avi" "video/webm" = "movie.avi" :=
  ⟨(derive_explicit_spec "movie" "video/webm").1 (by decide),
   (derive_explicit_spec "movie.avi" "video/webm").2.1 (by decide)⟩

/-- Helper for C8: in every run of the chunk loop the printed percentages
form a strictly increasing sequence, all above the starting progress. -/
theorem runChunks_reports_chain (script : List ChunkStep) :
    ∀ (progress : Nat),
    List.Chain' (· < ·) ((runChunks script progress).1) ∧
    ∀ r ∈ (runChunks script progress).1, progress < r := by
  induction script with
  | nil => intro progress; simp [runChunks]
  | cons s rest ih =>
    intro progress
    match s with
    | ChunkStep.raise => simp [runChunks]
    | ChunkStep.ret st (some r) =>
      refine ⟨?_, ?_⟩
      · cases st with
        | none => simp [runChunks, stepReports]
        | some np =>
          simp only [runChunks, stepReports]
          split <;> simp
      · intro x hx
        cases st with
        | none => simp [runChunks, stepReports] at hx
        | some np =>
          simp only [runChunks, stepReports] at hx
          split at hx
          · rename_i hnp
            simp at hx
            subst hx
            exact hnp
          · simp at hx
    | ChunkStep.ret st none =>
      cases st with
      | none =>
        have hrec := ih progress
        simpa [runChunks, stepReports, stepProgress] using hrec
      | some np =>
        by_cases hnp : progress < np
        · have hrec := ih np
          refine ⟨?_, ?_⟩
          · simp only [runChunks, stepReports, stepProgress, if_pos hnp]
            rw [List.singleton_append, List.chain'_cons']
            refine ⟨fun y hy => hrec.2 y (List.mem_of_mem_head? hy), hrec.1⟩
          · intro x hx
            simp only [runChunks, stepReports, stepProgress, if_pos hnp] at hx
            rw [List.singleton_append, List.mem_cons] at hx
            rcases hx with hx | hx
            · subst hx; exact hnp
            · calc progress < np := hnp
                _ < x := hrec.2 x hx
        · have hrec := ih progress
          simpa [runChunks, stepReports, stepProgress, if_neg hnp] using hrec

/-- Claim C8, counterexample: the reported percentages do NOT cover every
whole-percent value the progress passes through.  A two-chunk upload whose
statuses stand at 50% and then 100% completes (so the progress passed
through 51%) yet reports only `[50, 100]`: 51 is never reported. -/
theorem upload_progress_skips_values :
    (runChunks [ChunkStep.ret (some 50) none, ChunkStep.ret (some 100) none,
        ChunkStep.ret none (some ⟨some "fileid", some "https://drive.example/view"⟩)] 0).1
      = [50, 100] ∧ (51 : Nat) ∉ ([50, 100] : List Nat) := by
  constructor
  · rfl
  · decide

/-- Claim C8 (corrected): in every run of the upload loop the reported
percentages are pairwise strictly increasing — each report is a strict
whole-percent increase over every earlier one and no value is ever
reported twice — but whole-percent values skipped within a single chunk
are not reported. -/
theorem upload_reports_pairwise_increasing (script : List ChunkStep) :
    List.Pairwise (· < ·) ((upload_to_drive script).2.1) := by
  have hp : List.Pairwise (· < ·) ((runChunks script 0).1) :=
    List.chain'_iff_pairwise.mp (runChunks_reports_chain script 0).1
  unfold upload_to_drive
  split
  · rename_i reports resp n heq
    rw [heq] at hp
    exact hp
  · rename_i reports out n heq
    rw [heq] at hp
    exact hp

/-- Claim C9 (confirmed): whenever generation succeeds, the returned
content type is exactly the declared type of the first `video/` part of
the response, and that declared type is non-empty — so the
`DEFAULT_VIDEO_MIME_TYPE` fallback of line 133 is dead on every
successful run. -/
theorem generate_mime_is_declared (env : GenEnv) (response : GenResponse)
    (c0 : Candidate) (cs : List Candidate) (content : Content) (fd : FileData)
    (bs : List Nat) (ct : String)
    (h1 : env.generateContentResult = Except.ok response)
    (h2 : response.candidates = c0 :: cs)
    (h3 : c0.content = some content)
    (h4 : firstVideoPart content.parts = some fd)
    (h5 : (generate_veo_video env).1 = Except.ok (bs, ct)) :
    ct = fd.mime_type ∧ fd.mime_type ≠ "" := by
  have hmime := firstVideoPart_mime h4
  have hne := pyStartsWith_video_ne_empty hmime
  refine ⟨?_, hne⟩
  unfold generate_veo_video at h5
  split at h5
  · simp only [h1] at h5
    simp only [h2] at h5
    simp only [h3] at h5
    rw [if_neg (firstVideoPart_ne_nil h4)] at h5
    simp only [h4] at h5
    split at h5
    · split at h5
      · simp at h5
      · simp [hne] at h5
        exact h5.2.symm
    · simp at h5
  · simp at h5

/-- Witness for C9: in `envHttpsOk` the returned content type equals the
declared `video/mp4` of the first video part, which is non-empty. -/
theorem generate_mime_is_declared_witness :
    ("video/mp4" : String) = "video/mp4" ∧ ("video/mp4" : String) ≠ "" :=
  generate_mime_is_declared envHttpsOk
    ⟨[⟨some ⟨[⟨some ⟨"https://example.com/v.mp4", "video/mp4"⟩⟩]⟩⟩]⟩
    ⟨some ⟨[⟨some ⟨"https://example.com/v.mp4", "video/mp4"⟩⟩]⟩⟩ []
    ⟨[⟨some ⟨"https://example.com/v.mp4", "video/mp4"⟩⟩]⟩
    ⟨"https://example.com/v.mp4", "video/mp4"⟩ [7, 7] "video/mp4"
    rfl rfl rfl (by rfl) (by rfl)

/-- Claim C10 (confirmed): when the selected video reference is a `gs://`
URI with no `/` after the bucket, the `split` failure is caught and
generation returns the same `DownloadError` failure as any other
retrieval failure — no unhandled exception, and no fetch is attempted
(the attempt count is zero). -/
theorem generate_gs_no_slash_download_error (env : GenEnv) (response : GenResponse)
    (c0 : Candidate) (cs : List Candidate) (content : Content) (fd : FileData)
    (hmi : env.modelInitOk = true)
    (h1 : env.generateContentResult = Except.ok response)
    (h2 : response.candidates = c0 :: cs)
    (h3 : c0.content = some content)
    (h4 : firstVideoPart content.parts = some fd)
    (h5 : pyStartsWith fd.file_uri "https://" = false)
    (h6 : pyStartsWith fd.file_uri "gs://" = true)
    (h7 : env.storageAvailable = true)
    (h8 : splitFirstSlash (fd.file_uri.data.drop 5) = none) :
    generate_veo_video env = (Except.error GenFailure.DownloadError, 0) := by
  unfold generate_veo_video
  rw [if_pos hmi]
  simp only [h1]
  simp only [h2]
  simp only [h3]
  rw [if_neg (firstVideoPart_ne_nil h4)]
  simp only [h4]
  unfold downloadVideo
  rw [h5, h6]
  simp only [if_pos h7, h8]
  simp [h7]

/-- Witness for C10: in `envGsBad` (URI `gs://bucketonly`) generation
fails with `DownloadError` after zero retrieval attempts. -/
theorem generate_gs_no_slash_download_error_witness :
    generate_veo_video envGsBad = (Except.error GenFailure.DownloadError, 0) :=
  generate_gs_no_slash_download_error envGsBad
    ⟨[⟨some ⟨[⟨some ⟨"gs://bucketonly", "video/mp4"⟩⟩]⟩⟩]⟩
    ⟨some ⟨[⟨some ⟨"gs://bucketonly", "video/mp4"⟩⟩]⟩⟩ []
    ⟨[⟨some ⟨"gs://bucketonly", "video/mp4"⟩⟩]⟩
    ⟨"gs://bucketonly", "video/mp4"⟩
    rfl rfl rfl rfl (by rfl) (by decide) (by decide) rfl (by decide)

end VeoVidGen
